import Mathlib

/-!
Verification development for the Saarthi-AI retrieval-and-decision pipeline.

The repository ships the frontend (Next.js/TypeScript) and the design
documents; the backend Python modules (hybrid search, eligibility engine,
memory store, confidence gate, result assembler) are referenced by the docs
but are not part of the source tree here.  Definitions for those components
are therefore modelled from the specification text; definitions for the
frontend components are translated from the TypeScript sources.
-/

namespace Saarthi

/- ------------------------------------------------------------------ -/
/- Interaction logging (frontend, DetailsPage.logClickInteraction)     -/
/- ------------------------------------------------------------------ -/

/-- Saved applicant profile as read from localStorage by the details page. -/
structure SavedProfile where
  name : String
  category : String
deriving DecidableEq

/-- Body of `logClickInteraction` before the surrounding try/catch: when no
profile is saved the function returns early with success; otherwise the
awaited `fetch` call's outcome (success or rejection) is propagated. -/
def logClickBody (profile : Option SavedProfile)
    (fetchOutcome : Except String Unit) : Except String Unit :=
  match profile with
  | none => Except.ok ()
  | some _ => fetchOutcome

/-- `logClickInteraction` wraps its whole body in try/catch with an empty
catch block ("Silent fail - interaction logging is non-critical"), so every
error is swallowed and the call always completes successfully. -/
def logClickInteraction (profile : Option SavedProfile)
    (fetchOutcome : Except String Unit) : Except String Unit :=
  match logClickBody profile fetchOutcome with
  | Except.ok _ => Except.ok ()
  | Except.error _ => Except.ok ()

/- ------------------------------------------------------------------ -/
/- Search response entry type (frontend SearchPage `Scholarship`)      -/
/- ------------------------------------------------------------------ -/

/-- TypeScript field types occurring in the search page result interface. -/
inductive TSFieldType where
  | string : TSFieldType
  | number : TSFieldType
  | boolean : TSFieldType
  | array : TSFieldType → TSFieldType
  | object : TSFieldType
deriving DecidableEq

/-- One field declaration of a TypeScript interface. -/
structure TSField where
  name : String
  type : TSFieldType
  optional : Bool
deriving DecidableEq

/-- The `Scholarship` interface consumed by the search page for each entry
of the search response, field for field. -/
def searchScholarshipInterface : List TSField :=
  [⟨"id", TSFieldType.string, false⟩,
   ⟨"name", TSFieldType.string, false⟩,
   ⟨"provider", TSFieldType.string, false⟩,
   ⟨"amount", TSFieldType.number, false⟩,
   ⟨"match_score", TSFieldType.number, false⟩,
   ⟨"eligibility_status", TSFieldType.string, false⟩,
   ⟨"verified", TSFieldType.boolean, true⟩,
   ⟨"category", TSFieldType.array TSFieldType.string, true⟩,
   ⟨"deadline_info", TSFieldType.object, true⟩,
   ⟨"scam_indicators", TSFieldType.array TSFieldType.string, true⟩,
   ⟨"is_web_result", TSFieldType.boolean, true⟩,
   ⟨"application_link", TSFieldType.string, true⟩,
   ⟨"source_snippet", TSFieldType.string, true⟩]

/-- The declared type of a field of an interface, if the field exists. -/
def fieldType (fs : List TSField) (n : String) : Option TSFieldType :=
  (fs.find? (fun f => f.name == n)).map (fun f => f.type)

/- ------------------------------------------------------------------ -/
/- MemoryStream component (frontend)                                   -/
/- ------------------------------------------------------------------ -/

/-- A WebSocket telemetry event as parsed by the MemoryStream component. -/
structure WSEvent where
  searchId : String
  stage : String
  message : String
  timestamp : String
deriving DecidableEq

/-- JavaScript truthiness for a string: non-empty. -/
def truthy (s : String) : Bool := s ≠ ""

/-- The component's filter: an event is dropped only when the page has a
truthy search id, the event carries a truthy search id, and they differ. -/
def acceptsEvent (pageSid : Option String) (e : WSEvent) : Bool :=
  match pageSid with
  | none => true
  | some sid => !(truthy sid && truthy e.searchId && e.searchId != sid)

/-- One `onmessage` step of MemoryStream:
`setEvents (prev => [data, ...prev].slice(0, 50))` for accepted events. -/
def memoryStreamStep (events : List WSEvent) (pageSid : Option String)
    (e : WSEvent) : List WSEvent :=
  if acceptsEvent pageSid e then (e :: events).take 50 else events

/-- The displayed event list after a sequence of incoming messages,
starting from the empty list. -/
def memoryStreamEvents (pageSid : Option String) (msgs : List WSEvent) :
    List WSEvent :=
  msgs.foldl (fun acc e => memoryStreamStep acc pageSid e) []

/- ------------------------------------------------------------------ -/
/- RankFusion (backend)                                                -/
/- ------------------------------------------------------------------ -/

/-- Modelled from the spec: the single shared reciprocal-rank-fusion
constant of the backend hybrid search (`k=60`), missing from the source
tree together with the rest of the backend. -/
def rrfK : ℚ := 60

/-- Modelled from the spec: the contribution `1/(k+rank)` of one ranked
list to one item, with rank starting at `rank0` for the head of the list;
an item absent from the list contributes 0 (first occurrence counts). -/
def rrfContributionAux (l : List String) (item : String) (rank0 : ℕ) : ℚ :=
  match l with
  | [] => 0
  | x :: xs =>
    if x = item then 1 / (rrfK + rank0) else rrfContributionAux xs item (rank0 + 1)

/-- Modelled from the spec: a list's contribution to an item, rank
starting at 1. -/
def rrfContribution (l : List String) (item : String) : ℚ :=
  rrfContributionAux l item 1

/-- Modelled from the spec: the fused score of an item is the sum of the
contributions of all input lists. -/
def rrfScore (lists : List (List String)) (item : String) : ℚ :=
  (lists.map (fun l => rrfContribution l item)).sum

/-- Modelled from the spec: the fused ordering — every item occurring in
some input list, sorted in descending order of its summed score (stable
insertion sort, so ties keep their first-occurrence order). -/
def rankFusion (lists : List (List String)) : List String :=
  List.insertionSort (fun a b => rrfScore lists b ≤ rrfScore lists a)
    (lists.foldr (fun l acc => l ++ acc) []).dedup

/- ------------------------------------------------------------------ -/
/- ConfidenceGate (backend)                                            -/
/- ------------------------------------------------------------------ -/

/-- Mean of a list of scores (0 for the empty list, since `0/0 = 0`). -/
def confMean (xs : List ℚ) : ℚ := xs.sum / xs.length

/-- Population variance of a list of scores. -/
def confVariance (xs : List ℚ) : ℚ :=
  ((xs.map (fun x => (x - confMean xs) ^ 2)).sum) / xs.length

/-- Modelled from the spec: the confidence gate's trigger reasons over the
ranked score list, missing from the source tree together with the rest of
the backend.  The three OR-combined conditions are: top score below 0.6,
fewer than 3 candidates, standard deviation of the scores above 0.25.
Since both sides are non-negative, `stddev > 1/4` is encoded without a
square root as `variance > (1/4)^2`. -/
def needsFallbackReasons (scores : List ℚ) : List String :=
  (if scores.headI < 3 / 5 then ["low_top_score"] else []) ++
  (if scores.length < 3 then ["too_few_candidates"] else []) ++
  (if confVariance scores > (1 / 4) ^ 2 then ["unstable_ranking"] else [])

/-- Modelled from the spec: the boolean "needs external fallback" signal —
true exactly when at least one trigger reason fired. -/
def needsFallback (scores : List ℚ) : Bool :=
  !(needsFallbackReasons scores).isEmpty

/- ------------------------------------------------------------------ -/
/- EligibilityEngine (backend)                                         -/
/- ------------------------------------------------------------------ -/

/-- Applicant profile supplied per request. -/
structure ApplicantProfile where
  category : String
  income : ℕ
  region : String
  education : String
  gender : String
deriving DecidableEq

/-- The eligibility-relevant part of a catalog entry. -/
structure CatalogEntry where
  id : String
  categories : List String
  incomeCeiling : ℕ
  regions : List String
  educationLevels : List String
  genderReq : Option String
  trust : ℚ
deriving DecidableEq

/-- One (criterion, passed, explanation) tuple of the verdict breakdown. -/
structure CriterionResult where
  criterion : String
  passed : Bool
  explanation : String
deriving DecidableEq

/-- The eligibility verdict returned for one (profile, entry) pair. -/
structure EligibilityVerdict where
  schemeId : String
  eligible : Bool
  score : ℕ
  breakdown : List CriterionResult
deriving DecidableEq

/-- Points awarded for provider trust (trust in [0,1] scaled to 10). -/
def trustPoints (trust : ℚ) : ℕ := min 10 (trust * 10).floor.toNat

/-- Modelled from the spec: the deterministic eligibility engine, missing
from the source tree together with the rest of the backend.  Ordered
criteria; category match and income ceiling are hard requirements whose
failure short-circuits to `eligible=false, score=0` with only the criteria
evaluated so far in the breakdown; the remaining criteria are additive
(category 30, income 25, region 15, education 10, gender 10, trust 10 per
the architecture document) and `eligible = (score >= 60)`. -/
def evalEligibility (p : ApplicantProfile) (e : CatalogEntry) :
    EligibilityVerdict :=
  if p.category ∈ e.categories then
    if p.income ≤ e.incomeCeiling then
      let regionOk := p.region ∈ e.regions
      let eduOk := p.education ∈ e.educationLevels
      let genderOk := e.genderReq = none ∨ e.genderReq = some p.gender
      let tPts := trustPoints e.trust
      let score := 30 + 25 + (if regionOk then 15 else 0) +
        (if eduOk then 10 else 0) + (if genderOk then 10 else 0) + tPts
      { schemeId := e.id
        eligible := decide (60 ≤ score)
        score := score
        breakdown :=
          [⟨"category", true, "category requirement met"⟩,
           ⟨"income", true, "income within ceiling"⟩,
           ⟨"region", decide regionOk,
             if regionOk then "region matches" else "region does not match"⟩,
           ⟨"education", decide eduOk,
             if eduOk then "education level matches"
             else "education level does not match"⟩,
           ⟨"gender", decide genderOk,
             if genderOk then "gender requirement met"
             else "gender requirement not met"⟩,
           ⟨"trust", decide (5 ≤ tPts), "provider trust considered"⟩] }
    else
      { schemeId := e.id, eligible := false, score := 0
        breakdown :=
          [⟨"category", true, "category requirement met"⟩,
           ⟨"income", false, "income exceeds ceiling"⟩] }
  else
    { schemeId := e.id, eligible := false, score := 0
      breakdown := [⟨"category", false, "category not eligible"⟩] }

/- ------------------------------------------------------------------ -/
/- ResultAssembler (backend)                                           -/
/- ------------------------------------------------------------------ -/

/-- A per-request ranked candidate as seen by the result assembler. -/
structure RankedCandidate where
  id : String
  fused : ℚ
  boost : ℚ
  eligible : Bool
  eligScore : ℕ
  final : ℚ
deriving DecidableEq

/-- Modelled from the spec: the capped composite score
`final = 0.7*fused + 0.3*boost`. -/
def compositeScore (fused boost : ℚ) : ℚ := 7 / 10 * fused + 3 / 10 * boost

/-- Modelled from the spec: the eligibility override —
`eligible=false` forces the final score to 0. -/
def applyEligibilityOverride (eligible : Bool) (s : ℚ) : ℚ :=
  if eligible then s else 0

/-- Modelled from the spec: filling in a candidate's final score from its
fused score, memory boost and eligibility verdict. -/
def scoreCandidate (c : RankedCandidate) : RankedCandidate :=
  { c with
    final := (applyEligibilityOverride c.eligible
      (compositeScore c.fused c.boost)) }

/-- Modelled from the spec: the result assembler, missing from the source
tree together with the rest of the backend — compose final scores, sort by
final score descending (stable, insertion-order tie-break), truncate to
the requested top-K. -/
def assembleResults (cands : List RankedCandidate) (topK : ℕ) :
    List RankedCandidate :=
  (List.insertionSort (fun a b => b.final ≤ a.final)
    (cands.map scoreCandidate)).take topK

/- ------------------------------------------------------------------ -/
/- MemoryStore / personalization (backend)                             -/
/- ------------------------------------------------------------------ -/

/-- Dot product of two real embedding vectors (excess coordinates of the
longer vector are ignored). -/
noncomputable def dotProduct : List ℝ → List ℝ → ℝ
  | x :: xs, y :: ys => x * y + dotProduct xs ys
  | _, _ => 0

/-- Euclidean norm of an embedding vector. -/
noncomputable def vecNorm (v : List ℝ) : ℝ := Real.sqrt (dotProduct v v)

/-- Cosine similarity of two embedding vectors (0 when a norm is zero,
since division by zero yields 0). -/
noncomputable def cosineSim (u v : List ℝ) : ℝ :=
  dotProduct u v / (vecNorm u * vecNorm v)

/-- Modelled from the spec: the decaying interaction weight
`weight(t) = 1.0 * exp(-lambda * age_in_days)` with lambda fixed at 0.1,
missing from the source tree together with the rest of the backend. -/
noncomputable def decayWeight (ageDays : ℝ) : ℝ :=
  1 * Real.exp (-(1 / 10) * ageDays)

/-- A stored user interaction event: embedding plus creation time (in
days; the weight is recomputed at read time, never stored decayed). -/
structure InteractionEvent where
  userId : String
  targetId : String
  kind : String
  embedding : List ℝ
  createdAt : ℝ

/-- The embedding of a fused candidate, as consumed by the memory agent. -/
structure CandidateEmbedding where
  embedding : List ℝ

/-- Modelled from the spec: the per-candidate memory boost, missing from
the source tree together with the rest of the backend.  Fewer than 2
stored interactions returns 0 unconditionally (cold start); otherwise the
decay-weighted similarities are summed and normalized to a `[0,1]` boost
(weight-normalized average, clamped into the interval). -/
noncomputable def memoryBoost (events : List InteractionEvent)
    (cand : CandidateEmbedding) (now : ℝ) : ℝ :=
  if events.length < 2 then 0
  else
    let contribs := events.map
      (fun e => cosineSim cand.embedding e.embedding *
        decayWeight (now - e.createdAt))
    let totalWeight := (events.map
      (fun e => decayWeight (now - e.createdAt))).sum
    min 1 (max 0 (contribs.sum / totalWeight))

/- ------------------------------------------------------------------ -/
/- Theorems                                                            -/
/- ------------------------------------------------------------------ -/

/-- C8: a failure of interaction-event logging never fails the page: the
click-logging call swallows every error of its body (no saved profile, or
any fetch rejection) and always returns success, so the caller can never
observe or be delayed by a logging failure. -/
theorem logging_never_fails :
    ∀ profile fetchOutcome,
      logClickInteraction profile fetchOutcome = Except.ok () := by
  intro p r
  cases p <;> cases r <;> rfl

/-- C9 counterexample: in the search page's result entry type,
`eligibility_status` is declared as a string, not a boolean, and the type
has no `trust_score` or `reasoning` field at all. -/
theorem search_entry_status_is_string_not_bool :
    fieldType searchScholarshipInterface "eligibility_status" =
      some TSFieldType.string ∧
    fieldType searchScholarshipInterface "eligibility_status" ≠
      some TSFieldType.boolean ∧
    fieldType searchScholarshipInterface "trust_score" = none ∧
    fieldType searchScholarshipInterface "reasoning" = none := by
  decide

/-- C9 (amended): every entry of the search response type consumed by the
search page carries `eligibility_status` as a string value, alongside
`id`, `name`, `amount` and `match_score`. -/
theorem search_entry_field_types :
    fieldType searchScholarshipInterface "id" = some TSFieldType.string ∧
    fieldType searchScholarshipInterface "name" = some TSFieldType.string ∧
    fieldType searchScholarshipInterface "amount" = some TSFieldType.number ∧
    fieldType searchScholarshipInterface "match_score" =
      some TSFieldType.number ∧
    fieldType searchScholarshipInterface "eligibility_status" =
      some TSFieldType.string := by
  decide

/-- Helper: the MemoryStream fold keeps the event list at 50 entries or
fewer from any starting list already within the bound. -/
theorem memoryStream_foldl_length_le (pageSid : Option String) :
    ∀ (msgs : List WSEvent) (acc : List WSEvent), acc.length ≤ 50 →
      (msgs.foldl (fun a e => memoryStreamStep a pageSid e) acc).length ≤ 50 := by
  intro msgs
  induction msgs with
  | nil => intro acc h; simpa using h
  | cons e rest ih =>
    intro acc h
    apply ih
    show (memoryStreamStep acc pageSid e).length ≤ 50
    unfold memoryStreamStep
    split
    · exact le_trans (List.length_take_le _ _) (le_refl 50)
    · exact h

/-- C10: for every sequence of incoming WebSocket telemetry messages, the
MemoryStream component's displayed event list never exceeds 50 entries,
and after any accepted message the most recently received event is first. -/
theorem memoryStream_bounded_newest_first :
    (∀ pageSid msgs, (memoryStreamEvents pageSid msgs).length ≤ 50) ∧
    (∀ pageSid msgs e, acceptsEvent pageSid e = true →
      (memoryStreamEvents pageSid (msgs ++ [e])).head? = some e) := by
  constructor
  · intro pageSid msgs
    exact memoryStream_foldl_length_le pageSid msgs [] (by simp)
  · intro pageSid msgs e he
    unfold memoryStreamEvents
    rw [List.foldl_append]
    simp only [List.foldl_cons, List.foldl_nil]
    unfold memoryStreamStep
    rw [if_pos he]
    rfl

/-- C10 witness: a concrete accepted event lands at the head of the
displayed list. -/
theorem memoryStream_bounded_newest_first_witness :
    acceptsEvent none ⟨"s1", "START", "hello", "t0"⟩ = true ∧
    (memoryStreamEvents none
      ([] ++ [⟨"s1", "START", "hello", "t0"⟩])).head? =
      some ⟨"s1", "START", "hello", "t0"⟩ :=
  ⟨by decide, memoryStream_bounded_newest_first.2 none [] _ (by decide)⟩

/-- C1: every candidate in the assembled result set whose eligibility
verdict is `eligible = false` has final score 0, regardless of its fused
score and memory boost magnitude. -/
theorem eligibility_false_forces_zero_final :
    ∀ cands topK c, c ∈ assembleResults cands topK → c.eligible = false →
      c.final = 0 := by
  intro cands topK c hc helig
  have h1 : c ∈ List.insertionSort (fun a b => b.final ≤ a.final)
      (cands.map scoreCandidate) := List.mem_of_mem_take hc
  have h2 : c ∈ cands.map scoreCandidate := (List.mem_insertionSort _).mp h1
  obtain ⟨c0, _, rfl⟩ := List.mem_map.mp h2
  have he : c0.eligible = false := helig
  show applyEligibilityOverride c0.eligible
    (compositeScore c0.fused c0.boost) = 0
  rw [he]
  rfl

/-- C1 witness: a concrete ineligible candidate with a high fused score
and maximal boost appears in the assembled output with final score 0. -/
theorem eligibility_false_forces_zero_final_witness :
    (⟨"s1", 9 / 10, 1, false, 0, 0⟩ : RankedCandidate) ∈
      assembleResults [⟨"s1", 9 / 10, 1, false, 0, 1 / 2⟩] 5 ∧
    (⟨"s1", 9 / 10, 1, false, 0, 0⟩ : RankedCandidate).eligible = false ∧
    (⟨"s1", 9 / 10, 1, false, 0, 0⟩ : RankedCandidate).final = 0 := by
  have hm : (⟨"s1", 9 / 10, 1, false, 0, 0⟩ : RankedCandidate) ∈
      assembleResults [⟨"s1", 9 / 10, 1, false, 0, 1 / 2⟩] 5 :=
    List.mem_singleton.mpr rfl
  exact ⟨hm, rfl,
    eligibility_false_forces_zero_final
      [⟨"s1", 9 / 10, 1, false, 0, 1 / 2⟩] 5 _ hm rfl⟩

/-- C6: the assembler computes `final = 0.7*fused + 0.3*boost` for every
eligible candidate; the memory boost is already bounded to `[0,1]`; and
the boost's contribution to the composite is at most `0.3` — 30 percent of
the maximal final score — regardless of decay state. -/
theorem memory_boost_capped :
    (∀ c : RankedCandidate, c.eligible = true →
      (scoreCandidate c).final = 7 / 10 * c.fused + 3 / 10 * c.boost) ∧
    (∀ events cand now, 0 ≤ memoryBoost events cand now ∧
      memoryBoost events cand now ≤ 1) ∧
    (∀ fused boost : ℚ, 0 ≤ boost → boost ≤ 1 →
      compositeScore fused boost - compositeScore fused 0 ≤ 3 / 10) := by
  refine ⟨?_, ?_, ?_⟩
  · intro c hc
    show applyEligibilityOverride c.eligible
      (compositeScore c.fused c.boost) = _
    rw [hc]
    rfl
  · intro events cand now
    unfold memoryBoost
    split
    · constructor <;> norm_num
    · constructor
      · exact le_min zero_le_one (le_max_left 0 _)
      · exact min_le_left _ _
  · intro fused boost h0 h1
    unfold compositeScore
    linarith

/-- C6 witness: a concrete eligible candidate's final score follows the
`0.7/0.3` composition, and a maximal boost shifts the composite by at
most 0.3. -/
theorem memory_boost_capped_witness :
    ((⟨"s1", 1 / 2, 1, true, 80, 0⟩ : RankedCandidate).eligible = true) ∧
    (scoreCandidate ⟨"s1", 1 / 2, 1, true, 80, 0⟩).final =
      7 / 10 * (1 / 2) + 3 / 10 * 1 ∧
    (0 : ℚ) ≤ 1 ∧ (1 : ℚ) ≤ 1 ∧
    compositeScore (1 / 2) 1 - compositeScore (1 / 2) 0 ≤ 3 / 10 :=
  ⟨rfl, memory_boost_capped.1 ⟨"s1", 1 / 2, 1, true, 80, 0⟩ rfl,
    by norm_num, by norm_num,
    memory_boost_capped.2.2 (1 / 2) 1 (by norm_num) (by norm_num)⟩

/-- C7: the confidence gate signals "needs external fallback" exactly when
the top fused score is below 0.6, or fewer than 3 candidates were
returned, or the standard deviation of the scores exceeds 0.25 (encoded
as variance above `(1/4)^2`); in particular a top score of 0.55 with two
candidates triggers fallback. -/
theorem confidence_gate_spec :
    (∀ scores, needsFallback scores = true ↔
      (scores.headI < 3 / 5 ∨ scores.length < 3 ∨
        confVariance scores > (1 / 4) ^ 2)) ∧
    needsFallback [11 / 20, 1 / 2] = true := by
  constructor
  · intro scores
    unfold needsFallback needsFallbackReasons
    split_ifs <;> simp_all
  · norm_num [needsFallback, needsFallbackReasons, confVariance, confMean,
      List.headI]

/-- C2 counterexample: a profile that passes the category criterion but
fails the income ceiling yields `eligible=false, score=0`, yet the first
breakdown entry is the passed category criterion, not the failed hard
requirement. -/
theorem hard_fail_breakdown_first_counterexample :
    (evalEligibility ⟨"SC", 300000, "MH", "UG", "F"⟩
      ⟨"sch-1", ["SC"], 250000, ["MH"], ["UG"], none, 1⟩).eligible = false ∧
    (evalEligibility ⟨"SC", 300000, "MH", "UG", "F"⟩
      ⟨"sch-1", ["SC"], 250000, ["MH"], ["UG"], none, 1⟩).score = 0 ∧
    ((evalEligibility ⟨"SC", 300000, "MH", "UG", "F"⟩
      ⟨"sch-1", ["SC"], 250000, ["MH"], ["UG"], none, 1⟩).breakdown.head?.map
        (fun r => (r.criterion, r.passed))) = some ("category", true) := by
  decide

/-- C2 (amended): failing either hard requirement (category match or
income ceiling) immediately yields `eligible=false, score=0` and evaluates
no further criteria — the breakdown holds only the criteria evaluated so
far, ending with the failed hard requirement; when the category criterion
fails it appears first (as in Scenario B). -/
theorem hard_requirement_short_circuit :
    ∀ p e, (p.category ∉ e.categories ∨ e.incomeCeiling < p.income) →
      (evalEligibility p e).eligible = false ∧
      (evalEligibility p e).score = 0 ∧
      (evalEligibility p e).breakdown.length ≤ 2 ∧
      (((evalEligibility p e).breakdown.getLast?).map
        (fun r => r.passed)) = some false ∧
      (p.category ∉ e.categories →
        ((evalEligibility p e).breakdown.map
          (fun r => (r.criterion, r.passed))) = [("category", false)]) := by
  intro p e h
  by_cases hc : p.category ∈ e.categories
  · have hi : e.incomeCeiling < p.income := h.resolve_left (fun hn => hn hc)
    unfold evalEligibility
    rw [if_pos hc, if_neg (by omega)]
    exact ⟨rfl, rfl, by simp, rfl, fun hn => absurd hc hn⟩
  · unfold evalEligibility
    rw [if_neg hc]
    exact ⟨rfl, rfl, by simp, rfl, fun _ => rfl⟩

/-- C2 witness (Scenario B): category "General" with income 2,000,000
against a scheme requiring category SC and income at most 250,000 yields
`eligible=false, score=0` with the category failure first and alone in the
breakdown. -/
theorem hard_requirement_short_circuit_witness :
    (("General" : String) ∉ (["SC"] : List String) ∨
      (250000 : ℕ) < 2000000) ∧
    (evalEligibility ⟨"General", 2000000, "MH", "UG", "F"⟩
      ⟨"sch-b", ["SC"], 250000, [], [], none, 1⟩).eligible = false ∧
    (evalEligibility ⟨"General", 2000000, "MH", "UG", "F"⟩
      ⟨"sch-b", ["SC"], 250000, [], [], none, 1⟩).score = 0 ∧
    ((evalEligibility ⟨"General", 2000000, "MH", "UG", "F"⟩
      ⟨"sch-b", ["SC"], 250000, [], [], none, 1⟩).breakdown.map
        (fun r => (r.criterion, r.passed))) = [("category", false)] :=
  ⟨Or.inl (by decide),
    (hard_requirement_short_circuit _ _ (Or.inl (by decide))).1,
    (hard_requirement_short_circuit _ _ (Or.inl (by decide))).2.1,
    (hard_requirement_short_circuit _ _ (Or.inl (by decide))).2.2.2.2
      (by decide)⟩

/-- Helper: a list not containing an item contributes 0 to its score. -/
theorem rrfContributionAux_of_not_mem :
    ∀ (l : List String) (item : String) (rank0 : ℕ), item ∉ l →
      rrfContributionAux l item rank0 = 0 := by
  intro l
  induction l with
  | nil => intro item rank0 _; rfl
  | cons x xs ih =>
    intro item rank0 h
    have hx : ¬x = item := fun he => h (he ▸ List.mem_cons_self x xs)
    have hxs : item ∉ xs := fun hm => h (List.mem_cons_of_mem _ hm)
    unfold rrfContributionAux
    rw [if_neg hx, ih item (rank0 + 1) hxs]

/-- Helper: the rank formula — an item first occurring after `pre` at rank
`pre.length + rank0` receives `1 / (k + pre.length + rank0)`. -/
theorem rrfContributionAux_append :
    ∀ (pre post : List String) (item : String) (rank0 : ℕ), item ∉ pre →
      rrfContributionAux (pre ++ item :: post) item rank0 =
        1 / (rrfK + ((pre.length : ℚ) + rank0)) := by
  intro pre
  induction pre with
  | nil =>
    intro post item rank0 _
    unfold rrfContributionAux
    rw [List.nil_append]
    simp
  | cons x xs ih =>
    intro post item rank0 h
    have hx : ¬x = item := fun he => h (he ▸ List.mem_cons_self x xs)
    have hxs : item ∉ xs := fun hm => h (List.mem_cons_of_mem _ hm)
    show rrfContributionAux (x :: (xs ++ item :: post)) item rank0 = _
    unfold rrfContributionAux
    rw [if_neg hx, ih post item (rank0 + 1) hxs, List.length_cons]
    push_cast
    ring_nf

/-- Helper: a score of zero for items absent from every input list, and
the per-list decomposition of `rrfScore`. -/
theorem rrfScore_eq_mapped_sum :
    ∀ (lists : List (List String)) (item : String),
      rrfScore lists item =
        (lists.map (fun l => if item ∈ l then rrfContribution l item
          else 0)).sum := by
  intro lists item
  induction lists with
  | nil => rfl
  | cons l ls ih =>
    simp only [rrfScore, List.map_cons, List.sum_cons] at ih ⊢
    rw [ih]
    by_cases hm : item ∈ l
    · rw [if_pos hm]
    · rw [if_neg hm]
      unfold rrfContribution
      rw [rrfContributionAux_of_not_mem l item 1 hm]

/-- Helper: the score over lists none of which contains the item is 0. -/
theorem rrfScore_eq_zero_of_not_mem :
    ∀ (lists : List (List String)) (item : String),
      (∀ l ∈ lists, item ∉ l) → rrfScore lists item = 0 := by
  intro lists item h
  rw [rrfScore_eq_mapped_sum]
  induction lists with
  | nil => rfl
  | cons l ls ih =>
    simp only [List.map_cons, List.sum_cons]
    rw [if_neg (h l (List.mem_cons_self l ls)),
      ih (fun l' hl' => h l' (List.mem_cons_of_mem l hl')), zero_add]

/-- C3: reciprocal-rank fusion assigns each item the sum over the lists
containing it of `1/(k+rank)` with rank starting at 1 and the single
shared constant `k = 60`; an item present in only one list receives that
list's score alone; and the fused output is sorted in descending order of
the summed score. -/
theorem rrf_fusion_spec :
    rrfK = 60 ∧
    (∀ lists item, rrfScore lists item =
      (lists.map (fun l => if item ∈ l then rrfContribution l item
        else 0)).sum) ∧
    (∀ pre post item, item ∉ pre →
      rrfContribution (pre ++ item :: post) item =
        1 / (rrfK + (pre.length : ℚ) + 1)) ∧
    (∀ lists l item,
      lists.filter (fun l' => decide (item ∈ l')) = [l] →
      rrfScore lists item = rrfContribution l item) ∧
    (∀ lists, List.Sorted (fun a b => rrfScore lists b ≤ rrfScore lists a)
      (rankFusion lists)) := by
  refine ⟨rfl, rrfScore_eq_mapped_sum, ?_, ?_, ?_⟩
  · intro pre post item h
    unfold rrfContribution
    rw [rrfContributionAux_append pre post item 1 h]
    push_cast
    ring_nf
  · intro lists
    induction lists with
    | nil =>
      intro l item hf
      exact absurd hf (by simp)
    | cons l0 ls ih =>
      intro l item hf
      by_cases hm : item ∈ l0
      · rw [List.filter_cons_of_pos (by simpa using hm)] at hf
        obtain ⟨rfl, hrest⟩ := List.cons_eq_cons.mp hf
        have hnone : ∀ l' ∈ ls, item ∉ l' := by
          intro l' hl' hmem
          have : l' ∈ ls.filter (fun l'' => decide (item ∈ l'')) :=
            List.mem_filter.mpr ⟨hl', by simpa using hmem⟩
          rw [hrest] at this
          exact absurd this (List.not_mem_nil l')
        simp only [rrfScore, List.map_cons, List.sum_cons]
        rw [show (ls.map (fun l' => rrfContribution l' item)).sum =
          rrfScore ls item from rfl, rrfScore_eq_zero_of_not_mem ls item hnone,
          add_zero]
      · rw [List.filter_cons_of_neg (by simpa using hm)] at hf
        have := ih l item hf
        simp only [rrfScore, List.map_cons, List.sum_cons]
        rw [show (ls.map (fun l' => rrfContribution l' item)).sum =
          rrfScore ls item from rfl, this]
        unfold rrfContribution
        rw [rrfContributionAux_of_not_mem l0 item 1 hm, zero_add]
  · intro lists
    haveI : IsTotal String
        (fun a b => rrfScore lists b ≤ rrfScore lists a) :=
      ⟨fun a b => le_total (rrfScore lists b) (rrfScore lists a)⟩
    haveI : IsTrans String
        (fun a b => rrfScore lists b ≤ rrfScore lists a) :=
      ⟨fun _ _ _ h1 h2 => le_trans h2 h1⟩
    unfold rankFusion
    exact List.sorted_insertionSort _ _

/-- C3 witness: concrete inputs for the rank formula (an item at rank 2
scores `1/62`) and for the single-list property (an item occurring only in
the second list receives exactly that list's contribution). -/
theorem rrf_fusion_spec_witness :
    (("b" : String) ∉ (["a"] : List String)) ∧
    rrfContribution (["a"] ++ "b" :: []) "b" =
      1 / (rrfK + ((["a"] : List String).length : ℚ) + 1) ∧
    (([["a", "b"], ["c"]] : List (List String)).filter
      (fun l' => decide (("c" : String) ∈ l')) = [["c"]]) ∧
    rrfScore [["a", "b"], ["c"]] "c" = rrfContribution ["c"] "c" :=
  ⟨by decide, rrf_fusion_spec.2.2.1 ["a"] [] "b" (by decide), by decide,
    rrf_fusion_spec.2.2.2.1 [["a", "b"], ["c"]] ["c"] "c" (by decide)⟩

/-- C5: for every user with fewer than 2 stored interaction events, the
memory boost is exactly 0 for every candidate, unconditionally and
regardless of embedding similarity (cold start). -/
theorem cold_start_zero_boost :
    ∀ events cand now, events.length < 2 →
      memoryBoost events cand now = 0 := by
  intro events cand now h
  unfold memoryBoost
  rw [if_pos h]

/-- C5 witness: an empty interaction log gives boost 0. -/
theorem cold_start_zero_boost_witness :
    ([] : List InteractionEvent).length < 2 ∧
    memoryBoost [] ⟨[]⟩ 0 = 0 :=
  ⟨by decide, cold_start_zero_boost [] ⟨[]⟩ 0 (by decide)⟩

/-- C4: the read-time interaction weight is
`1.0 * exp(-0.1 * age_in_days)`; a weight at age 0 is 1 and a weight at
age 7 days is within 1/100 of half the weight at age 0 (the approximate
7-day half-life of the `0.1` decay rate). -/
theorem decay_weight_spec :
    decayWeight 0 = 1 ∧
    (∀ a, decayWeight a = 1 * Real.exp (-(1 / 10) * a)) ∧
    |decayWeight 7 - 1 / 2 * decayWeight 0| < 1 / 100 := by
  have h0 : decayWeight 0 = 1 := by
    unfold decayWeight
    norm_num
  refine ⟨h0, fun a => rfl, ?_⟩
  have hd7 : decayWeight 7 = (Real.exp (7 / 10))⁻¹ := by
    unfold decayWeight
    rw [one_mul, show -(1 / 10 : ℝ) * 7 = -(7 / 10) by norm_num,
      Real.exp_neg]
  have hE10 : Real.exp (7 / 10) ^ 10 = Real.exp 7 := by
    rw [← Real.exp_nat_mul]
    norm_num
  have hexp7 : Real.exp 7 = Real.exp 1 ^ 7 := by
    rw [← Real.exp_nat_mul]
    norm_num
  have hup : Real.exp (7 / 10) ^ 10 < (100 / 49 : ℝ) ^ 10 := by
    rw [hE10, hexp7]
    calc Real.exp 1 ^ 7 < (2.7182818286 : ℝ) ^ 7 :=
          pow_lt_pow_left₀ Real.exp_one_lt_d9 (Real.exp_pos 1).le
            (by norm_num)
      _ < (100 / 49 : ℝ) ^ 10 := by norm_num
  have hlow : (100 / 51 : ℝ) ^ 10 < Real.exp (7 / 10) ^ 10 := by
    rw [hE10, hexp7]
    calc (100 / 51 : ℝ) ^ 10 < (2.7182818283 : ℝ) ^ 7 := by norm_num
      _ < Real.exp 1 ^ 7 :=
          pow_lt_pow_left₀ Real.exp_one_gt_d9 (by norm_num) (by norm_num)
  have hEub : Real.exp (7 / 10) < 100 / 49 :=
    lt_of_pow_lt_pow_left₀ 10 (by norm_num) hup
  have hElb : (100 / 51 : ℝ) < Real.exp (7 / 10) :=
    lt_of_pow_lt_pow_left₀ 10 (Real.exp_pos _).le hlow
  have hx : (0 : ℝ) < Real.exp (7 / 10) := Real.exp_pos _
  have hy : (0 : ℝ) < (Real.exp (7 / 10))⁻¹ := inv_pos.mpr hx
  have hxy : Real.exp (7 / 10) * (Real.exp (7 / 10))⁻¹ = 1 :=
    mul_inv_cancel₀ (ne_of_gt hx)
  have h1 := mul_lt_mul_of_pos_right hEub hy
  have h2 := mul_lt_mul_of_pos_right hElb hy
  rw [hd7, h0, abs_lt]
  constructor <;> nlinarith [h1, h2, hxy, hy]

end Saarthi
